import Mathlib

/-!
Shallow embedding of the cart-to-order core of `src/index.js` (an Express +
MySQL e-commerce backend).  Tables are lists of rows, a handler is a pure
function from the database state and the request fields to a response record
and the successor state.  Monetary values are exact integers (the routes only
add and multiply them), timestamps are naturals supplied to the handler as
the value of the SQL `NOW()`.

Express dispatches a request to the **first** registered handler of a
matching route; the source registers `POST /api/cart`, `GET /api/orders` and
`GET /api/orders/:orderId` twice, so the first registration of each is the
behaviour a client observes and the second is unreachable.  Both cart-add
registrations are embedded below (`cartAddFirst`, `cartAddSecond`) because
the claims compare them.
-/

/-- Catalog row of the `products` table; the cart and order routes read the
columns `id`, `name`, `price`, `image`. -/
structure Product where
  id : Nat
  name : String
  price : Int
  image : String
  deriving DecidableEq

/-- Row of the `cart` table: the per-(user, product) desired quantity. -/
structure CartRow where
  user_id : Nat
  product_id : Nat
  quantity : Int
  deriving DecidableEq

/-- Row of the `orders` table. -/
structure OrderRow where
  id : Nat
  user_id : Nat
  order_date : Nat
  total_amount : Int
  deriving DecidableEq

/-- Row of the `order_items` table: the frozen price and quantity written at
checkout time. -/
structure OrderItemRow where
  order_id : Nat
  product_id : Nat
  quantity : Int
  price : Int
  deriving DecidableEq

/-- The database state the routes read and write.  `nextOrderId` models the
AUTO_INCREMENT counter of `orders.id`. -/
structure DB where
  products : List Product
  cart : List CartRow
  orders : List OrderRow
  order_items : List OrderItemRow
  nextOrderId : Nat
  deriving DecidableEq

/-- The `WHERE user_id = ? AND product_id = ?` condition shared by the cart
routes. -/
def rowMatches (u p : Nat) (r : CartRow) : Bool :=
  r.user_id == u && r.product_id == p

/-- Response of the cart-add handlers: HTTP status, the `cartItem` echoed in
the body on success, and the successor database state. -/
structure CartAddRes where
  status : Nat
  cartItem : Option CartRow
  db : DB
  deriving DecidableEq

/-- First registration of `POST /api/cart` (src/index.js:171); Express
dispatches every request for this route here.  Validation is JavaScript
truthiness of the three body fields (for numbers, only `0` is falsy); the
handler then SELECTs the (user, product) row and either UPDATEs the summed
quantity or INSERTs a new row.  There is no transaction, no quantity-sign
check and no catalog lookup. -/
def cartAddFirst (db : DB) (user_id product_id : Nat) (quantity : Int) : CartAddRes :=
  if user_id == 0 || product_id == 0 || quantity == 0 then
    ⟨400, none, db⟩
  else
    match db.cart.find? (rowMatches user_id product_id) with
    | some row =>
      let newQuantity := row.quantity + quantity
      ⟨200, some ⟨user_id, product_id, newQuantity⟩,
        { db with cart := db.cart.map (fun r =>
            if rowMatches user_id product_id r then { r with quantity := newQuantity } else r) }⟩
    | none =>
      ⟨200, some ⟨user_id, product_id, quantity⟩,
        { db with cart := db.cart ++ [⟨user_id, product_id, quantity⟩] }⟩

/-- Second, unreachable registration of `POST /api/cart` (src/index.js:238,
the source comment calls it the enhanced version with additional checks):
rejects a non-positive quantity with 400 and a product id absent from the
catalog with 404 before any cart write, then performs the same
select-then-update-or-insert inside a transaction. -/
def cartAddSecond (db : DB) (user_id product_id : Nat) (quantity : Int) : CartAddRes :=
  if user_id == 0 || product_id == 0 || quantity == 0 then
    ⟨400, none, db⟩
  else if quantity ≤ 0 then
    ⟨400, none, db⟩
  else if (db.products.find? fun p => p.id == product_id).isNone then
    ⟨404, none, db⟩
  else
    match db.cart.find? (rowMatches user_id product_id) with
    | some row =>
      let newQuantity := row.quantity + quantity
      ⟨200, some ⟨user_id, product_id, newQuantity⟩,
        { db with cart := db.cart.map (fun r =>
            if rowMatches user_id product_id r then { r with quantity := newQuantity } else r) }⟩
    | none =>
      ⟨200, some ⟨user_id, product_id, quantity⟩,
        { db with cart := db.cart ++ [⟨user_id, product_id, quantity⟩] }⟩

/-- Response carrying only a status and the successor state. -/
structure SimpleRes where
  status : Nat
  db : DB
  deriving DecidableEq

/-- `POST /api/cart/update` (src/index.js:397): a quantity of zero or less
DELETEs the (user, product) row and answers 200 whether or not a row
existed; a positive quantity runs
`INSERT ... ON DUPLICATE KEY UPDATE quantity = ?`, which sets the absolute
quantity of an existing row and otherwise inserts one. -/
def cartUpdatePost (db : DB) (userId productId : Nat) (quantity : Int) : SimpleRes :=
  if userId == 0 || productId == 0 then
    ⟨400, db⟩
  else if quantity ≤ 0 then
    ⟨200, { db with cart := db.cart.filter (fun r => !rowMatches userId productId r) }⟩
  else if db.cart.any (rowMatches userId productId) then
    ⟨200, { db with cart := db.cart.map (fun r =>
        if rowMatches userId productId r then { r with quantity := quantity } else r) }⟩
  else
    ⟨200, { db with cart := db.cart ++ [⟨userId, productId, quantity⟩] }⟩

/-- Response of `DELETE /api/cart/remove`. -/
structure RemoveRes where
  status : Nat
  deletedRows : Nat
  db : DB
  deriving DecidableEq

/-- `DELETE /api/cart/remove` (src/index.js:449): DELETEs the (user,
product) row, answering 404 when no row was deleted. -/
def cartRemove (db : DB) (userId productId : Nat) : RemoveRes :=
  if userId == 0 || productId == 0 then
    ⟨400, 0, db⟩
  else
    let affected := (db.cart.filter (rowMatches userId productId)).length
    let db1 := { db with cart := db.cart.filter (fun r => !rowMatches userId productId r) }
    if affected == 0 then ⟨404, 0, db1⟩ else ⟨200, affected, db1⟩

/-- `PUT /api/cart/update-quantity` (src/index.js:747): validates the
quantity (reject below 1 with 400), then runs a plain UPDATE and answers 404
when `affectedRows` is zero.  MySQL reports as affected only the rows the
UPDATE actually changed, so rows already holding the requested quantity do
not count. -/
def cartUpdateQuantityPut (db : DB) (userId productId : Nat) (quantity : Int) : SimpleRes :=
  if userId == 0 || productId == 0 then
    ⟨400, db⟩
  else if quantity < 1 then
    ⟨400, db⟩
  else
    let affected :=
      (db.cart.filter fun r => rowMatches userId productId r && !(r.quantity == quantity)).length
    let db1 := { db with cart := db.cart.map (fun r =>
        if rowMatches userId productId r then { r with quantity := quantity } else r) }
    if affected == 0 then ⟨404, db1⟩ else ⟨200, db1⟩

/-- One joined row of the `GET /api/cart/:userId` response. -/
structure CartView where
  product_id : Nat
  quantity : Int
  name : String
  price : Int
  image : String
  deriving DecidableEq

/-- Response of `GET /api/cart/:userId`. -/
structure GetCartRes where
  status : Nat
  cartItems : List CartView
  totalItems : Nat
  totalValue : Int
  deriving DecidableEq

/-- `GET /api/cart/:userId` (src/index.js:337): the user's cart rows inner
JOINed with `products` on `c.product_id = p.id`, plus the computed total of
current price times quantity; an empty cart yields 200 with an empty list
and zero totals. -/
def getCart (db : DB) (userId : Nat) : GetCartRes :=
  if userId == 0 then
    ⟨400, [], 0, 0⟩
  else
    let results := (db.cart.filter (fun r => r.user_id == userId)).filterMap (fun r =>
      (db.products.find? (fun p => p.id == r.product_id)).map (fun p =>
        ⟨r.product_id, r.quantity, p.name, p.price, p.image⟩))
    if results.isEmpty then ⟨200, [], 0, 0⟩
    else ⟨200, results, results.length,
      results.foldl (fun t it => t + it.price * it.quantity) 0⟩

/-- One element of the `items` array a client posts to
`POST /api/orders/place`: product id, quantity and the client-supplied
price. -/
structure ReqItem where
  id : Nat
  quantity : Int
  price : Int
  deriving DecidableEq

/-- The `items.reduce((total, item) => total + item.price * item.quantity, 0)`
of the cart-checkout handler. -/
def lineTotal (items : List ReqItem) : Int :=
  items.foldl (fun t it => t + it.price * it.quantity) 0

/-- Response of `POST /api/orders/place`. -/
structure PlaceOrderRes where
  status : Nat
  orderId : Option Nat
  db : DB
  deriving DecidableEq

/-- `POST /api/orders/place` (src/index.js:528): rejects a falsy user id or
an empty item list with 400 before any write; otherwise, in one transaction,
totals the client-supplied prices, INSERTs the order header dated `NOW()`,
batch-INSERTs one `order_items` row per supplied item with the supplied
price and quantity, and DELETEs every cart row of the user. -/
def placeOrder (db : DB) (now : Nat) (userId : Nat) (items : List ReqItem) : PlaceOrderRes :=
  if userId == 0 || items.isEmpty then
    ⟨400, none, db⟩
  else
    let totalAmount := lineTotal items
    let orderId := db.nextOrderId
    ⟨200, some orderId,
      { db with
          orders := db.orders ++ [⟨orderId, userId, now, totalAmount⟩],
          order_items := db.order_items ++
            items.map (fun it => ⟨orderId, it.id, it.quantity, it.price⟩),
          cart := db.cart.filter (fun r => !(r.user_id == userId)),
          nextOrderId := db.nextOrderId + 1 }⟩

/-- The display prefix of an order id. -/
def ordTag : String := "ORD-"

/-- Success body of `POST /api/single-order`. -/
structure SingleOrderBody where
  id : String
  userId : Nat
  productId : Nat
  quantity : Int
  totalAmount : Int
  productName : String
  productImage : String
  deriving DecidableEq

/-- Response of `POST /api/single-order`. -/
structure SingleOrderRes where
  status : Nat
  body : Option SingleOrderBody
  db : DB
  deriving DecidableEq

/-- `POST /api/single-order` (src/index.js:966): after the truthiness
validation, re-fetches the product row inside the transaction; a missing
product throws, the inner catch rolls the transaction back and rethrows, and
the outer catch answers 500 (error `Failed to create order`, details
`Product not found`).  On success the total is the authoritative catalog
price times the quantity, the order header and its single item row are
INSERTed, and the handler answers 201; the cart is never touched. -/
def placeSingleOrder (db : DB) (now : Nat) (userId productId : Nat) (quantity : Int) :
    SingleOrderRes :=
  if userId == 0 || productId == 0 || quantity == 0 then
    ⟨400, none, db⟩
  else
    match db.products.find? (fun p => p.id == productId) with
    | none => ⟨500, none, db⟩
    | some product =>
      let totalAmount := product.price * quantity
      let orderId := db.nextOrderId
      ⟨201,
        some ⟨ordTag ++ toString orderId, userId, productId, quantity, totalAmount,
          product.name, product.image⟩,
        { db with
            orders := db.orders ++ [⟨orderId, userId, now, totalAmount⟩],
            order_items := db.order_items ++ [⟨orderId, productId, quantity, product.price⟩],
            nextOrderId := db.nextOrderId + 1 }⟩

/-- The empty string, the only falsy value the route-parameter validations
can see. -/
def emptyStr : String := ""

/-- Strips the `ORD-` display prefix from an order-id parameter: models the
`orderId.replace` of src/index.js:683.  On the two accepted id forms (a
decimal id, or an `ORD-`-prefixed decimal id) replacing the first occurrence
of the tag is exactly prefix stripping. -/
def stripOrd (s : String) : String :=
  match s.data with
  | 'O' :: 'R' :: 'D' :: '-' :: rest => String.mk rest
  | _ => s

/-- MySQL coerces a string placeholder for comparison against the integer
`id` column; the coerced comparison succeeds exactly when the parameter is
the decimal rendering of the id. -/
def sqlIdEq (s : String) (n : Nat) : Bool :=
  s == toString n

/-- One line item of a processed order response. -/
structure OItemView where
  product_id : Nat
  name : String
  price : Int
  quantity : Int
  image : String
  deriving DecidableEq

/-- A processed order of the order read endpoints: display id, calendar
date, total, nested items. -/
structure ProcessedOrder where
  id : String
  date : Nat
  total : Int
  items : List OItemView
  deriving DecidableEq

/-- Milliseconds per day. -/
def msPerDay : Nat := 86400000

/-- Models `new Date(order_date).toISOString().split("T")[0]`: the calendar
day holding the timestamp, with the time-of-day component discarded. -/
def dateOnly (t : Nat) : Nat :=
  t / msPerDay

/-- Response of `GET /api/orders/:orderId`. -/
structure OrderDetailRes where
  status : Nat
  order : Option ProcessedOrder
  deriving DecidableEq

/-- The processed payload `GET /api/orders/:orderId` builds for the order
row it found: display id, calendar date, total, and the `order_items` rows
of this order JOINed with `products` for name and image, carrying the frozen
`oi.price` and `oi.quantity`. -/
def processOrder (db : DB) (o : OrderRow) : ProcessedOrder :=
  { id := ordTag ++ toString o.id,
    date := dateOnly o.order_date,
    total := o.total_amount,
    items := (db.order_items.filter (fun oi => sqlIdEq (toString o.id) oi.order_id)).filterMap
      (fun oi => (db.products.find? (fun p => p.id == oi.product_id)).map (fun p =>
        ⟨oi.product_id, p.name, oi.price, oi.quantity, p.image⟩)) }

/-- First registration of `GET /api/orders/:orderId` (src/index.js:674);
Express dispatches every request for this route here.  Strips an `ORD-`
prefix from the path parameter, SELECTs the order matching both the id and
the requesting user, answers 404 when none matches, and otherwise builds the
processed payload from a second items query keyed by the same stripped
parameter. -/
def getOrderFirst (db : DB) (userId : Nat) (orderId : String) : OrderDetailRes :=
  if userId == 0 || orderId == emptyStr then
    ⟨400, none⟩
  else
    let numericOrderId := stripOrd orderId
    match db.orders.find? (fun o => sqlIdEq numericOrderId o.id && o.user_id == userId) with
    | none => ⟨404, none⟩
    | some o =>
      ⟨200, some
        { id := ordTag ++ toString o.id,
          date := dateOnly o.order_date,
          total := o.total_amount,
          items := (db.order_items.filter
              (fun oi => sqlIdEq numericOrderId oi.order_id)).filterMap
            (fun oi => (db.products.find? (fun p => p.id == oi.product_id)).map (fun p =>
              ⟨oi.product_id, p.name, oi.price, oi.quantity, p.image⟩)) }⟩

/-- Inserts an order into a list kept descending in `order_date`. -/
def insertByDateDesc (o : OrderRow) : List OrderRow → List OrderRow
  | [] => [o]
  | x :: xs =>
    if x.order_date ≤ o.order_date then o :: x :: xs else x :: insertByDateDesc o xs

/-- Models the `ORDER BY o.order_date DESC` of the orders query: an
arrangement of the rows that is descending in `order_date`. -/
def sortByDateDesc (l : List OrderRow) : List OrderRow :=
  l.foldr insertByDateDesc []

/-- One step of the `reduce` at src/index.js:640 building the
`orderItemsMap` object: push the item onto the entry of its order id,
creating the entry when absent. -/
def insertGroup (acc : List (Nat × List OItemView)) (k : Nat) (v : OItemView) :
    List (Nat × List OItemView) :=
  if acc.any (fun e => e.1 == k) then
    acc.map (fun e => if e.1 == k then (e.1, e.2 ++ [v]) else e)
  else acc ++ [(k, [v])]

/-- Reading `orderItemsMap[order_id]`. -/
def lookupGroup (acc : List (Nat × List OItemView)) (k : Nat) : Option (List OItemView) :=
  (acc.find? (fun e => e.1 == k)).map (fun e => e.2)

/-- Response of `GET /api/orders`. -/
structure OrdersListRes where
  status : Nat
  orders : List ProcessedOrder
  deriving DecidableEq

/-- First registration of `GET /api/orders` (src/index.js:590); Express
dispatches every request for this route here.  SELECTs the user's orders
newest first, answers an empty list when there are none, batch-fetches the
items of all those orders in one JOINed query, groups them by order id with
a `reduce`, and formats each order with its display id, calendar date and
grouped items (`|| []` when the group is absent). -/
def listOrdersFirst (db : DB) (userId : Nat) : OrdersListRes :=
  if userId == 0 then
    ⟨400, []⟩
  else
    let orderResults := sortByDateDesc (db.orders.filter (fun o => o.user_id == userId))
    if orderResults.isEmpty then
      ⟨200, []⟩
    else
      let orderIds := orderResults.map (fun o => o.id)
      let joined := (db.order_items.filter (fun oi => orderIds.contains oi.order_id)).filterMap
        (fun oi => (db.products.find? (fun p => p.id == oi.product_id)).map (fun p =>
          (oi.order_id, (⟨oi.product_id, p.name, oi.price, oi.quantity, p.image⟩ : OItemView))))
      let orderItemsMap := joined.foldl (fun acc it => insertGroup acc it.1 it.2) []
      ⟨200, orderResults.map (fun o =>
        ⟨ordTag ++ toString o.id, dateOnly o.order_date, o.total_amount,
          (lookupGroup orderItemsMap o.id).getD []⟩)⟩

/-- One in-flight request to the dispatched `POST /api/cart` handler, broken
at its two database round trips: the SELECT of the existing (user, product)
row, and the UPDATE or INSERT computed from what that SELECT returned. -/
structure AddCall where
  user : Nat
  product : Nat
  qty : Int
  readResult : Option (Option Int)
  done : Bool
  deriving DecidableEq

/-- A fresh in-flight cart-add request. -/
def mkAddCall (u p : Nat) (q : Int) : AddCall :=
  ⟨u, p, q, none, false⟩

/-- The SELECT round trip: record the quantity of the (user, product) row,
or that none exists. -/
def readStep (cart : List CartRow) (c : AddCall) : AddCall :=
  let seen := (cart.find? (rowMatches c.user c.product)).map (fun r => r.quantity)
  { c with readResult := some seen }

/-- The write round trip: INSERT when the SELECT saw no row, otherwise
UPDATE to the quantity computed from the selected row. -/
def writeStep (cart : List CartRow) (c : AddCall) : List CartRow :=
  match c.readResult with
  | none => cart
  | some none => cart ++ [⟨c.user, c.product, c.qty⟩]
  | some (some q0) => cart.map (fun r =>
      if rowMatches c.user c.product r then { r with quantity := q0 + c.qty } else r)

/-- The cart table together with the in-flight cart-add requests. -/
structure RaceState where
  cart : List CartRow
  calls : List AddCall
  deriving DecidableEq

/-- Runs the next pending database round trip of call `i`. -/
def stepCall (s : RaceState) (i : Nat) : RaceState :=
  match s.calls[i]? with
  | none => s
  | some c =>
    if c.done then s
    else
      match c.readResult with
      | none => { s with calls := s.calls.set i (readStep s.cart c) }
      | some _ => { cart := writeStep s.cart c, calls := s.calls.set i { c with done := true } }

/-- Interleaves the round trips of the in-flight calls in schedule order. -/
def runSchedule (s : RaceState) (sched : List Nat) : RaceState :=
  sched.foldl stepCall s

/-- Follows the spec's words (§3 Order, GLOSSARY authoritative price): the
total of an item list priced server-side from the catalog, the sum over the
items of the catalog price of the item's product times its quantity (a
product absent from the catalog contributes nothing). -/
def specCatalogTotal (db : DB) (items : List ReqItem) : Int :=
  (items.map (fun it =>
    (((db.products.find? (fun p => p.id == it.id)).map (fun p => p.price)).getD 0)
      * it.quantity)).sum

/-- Follows the spec's words (§4.4 listOrders, §8 property 8): the display
form of one order with its line items reconstructed directly from the
`order_items` rows of that order, carrying their frozen price and quantity;
name and image come from the catalog join. -/
def specOrderView (db : DB) (o : OrderRow) : ProcessedOrder :=
  { id := ordTag ++ toString o.id,
    date := dateOnly o.order_date,
    total := o.total_amount,
    items := (db.order_items.filter (fun oi => oi.order_id == o.id)).filterMap
      (fun oi => (db.products.find? (fun p => p.id == oi.product_id)).map (fun p =>
        ⟨oi.product_id, p.name, oi.price, oi.quantity, p.image⟩)) }

/-! ### Helper lemmas -/

theorem lineTotal_foldl (items : List ReqItem) (t : Int) :
    items.foldl (fun t it => t + it.price * it.quantity) t
      = t + (items.map (fun it => it.price * it.quantity)).sum := by
  induction items generalizing t with
  | nil => simp
  | cons x xs ih => simp [ih, add_assoc]

theorem lineTotal_eq_sum (items : List ReqItem) :
    lineTotal items = (items.map (fun it => it.price * it.quantity)).sum := by
  simpa using lineTotal_foldl items 0

theorem filter_not_self {l : List CartRow} (p : CartRow → Bool) :
    (l.filter (fun r => !p r)).filter p = [] := by
  simp [List.filter_filter]

/-! ### C1 -/

/-- Database of the C1 failing input: the catalog prices product 1 at 10. -/
def dbC1 : DB := ⟨[⟨1, "widget", 10, "w"⟩], [], [], [], 1⟩

/-- C1 fails on the cart-checkout path: `placeOrder` propagates the
client-supplied price into the stored `total_amount` instead of computing it
from the authoritative catalog.  With the catalog pricing product 1 at 10, a
request pricing it at 999 with quantity 2 stores a total of 1998, while the
authoritative catalog total of the same item list is 20. -/
theorem C1_placeOrder_trusts_client_price :
    (placeOrder dbC1 5 1 [⟨1, 2, 999⟩]).status = 200 ∧
    (placeOrder dbC1 5 1 [⟨1, 2, 999⟩]).db.orders.map (fun o => o.total_amount) = [1998] ∧
    specCatalogTotal dbC1 [⟨1, 2, 999⟩] = 20 ∧
    (1998 : Int) ≠ 20 :=
  ⟨by decide, by decide, by decide, by decide⟩

/-! ### C2 -/

/-- C2: for every user and every non-empty item list, `placeOrder` answers
200 and atomically appends exactly one order row, dated by the server clock
and totalling the sum of the supplied items' price times quantity, appends
one `order_items` row per supplied item carrying the supplied price and
quantity, and deletes every cart row of the user, whose cart is empty
afterward. -/
theorem C2_placeOrder_checkout (db : DB) (now userId : Nat) (items : List ReqItem)
    (hu : userId ≠ 0) (hi : items ≠ []) :
    (placeOrder db now userId items).status = 200 ∧
    (placeOrder db now userId items).db.orders =
      db.orders ++ [⟨db.nextOrderId, userId, now,
        (items.map (fun it => it.price * it.quantity)).sum⟩] ∧
    (placeOrder db now userId items).db.order_items =
      db.order_items ++ items.map (fun it => ⟨db.nextOrderId, it.id, it.quantity, it.price⟩) ∧
    (placeOrder db now userId items).db.cart =
      db.cart.filter (fun r => !(r.user_id == userId)) ∧
    (placeOrder db now userId items).db.cart.filter (fun r => r.user_id == userId) = [] := by
  have hcond : (userId == 0 || items.isEmpty) = false := by
    simp [hu, List.isEmpty_iff, hi]
  refine ⟨?_, ?_, ?_, ?_, ?_⟩ <;>
    simp [placeOrder, hcond, lineTotal_eq_sum, filter_not_self]

/-- Concrete database for the C2 witness: two catalog products and a
two-row cart of user 5. -/
def dbC2 : DB :=
  ⟨[⟨1, "widget", 10, "w"⟩, ⟨2, "gadget", 5, "g"⟩], [⟨5, 1, 2⟩, ⟨5, 2, 1⟩], [], [], 1⟩

/-- The spec's §8 item list for C2. -/
def itemsC2 : List ReqItem := [⟨1, 2, 10⟩, ⟨2, 1, 5⟩]

theorem C2_placeOrder_checkout_witness :
    (placeOrder dbC2 77 5 itemsC2).status = 200 ∧
    (placeOrder dbC2 77 5 itemsC2).db.orders = [⟨1, 5, 77, 25⟩] ∧
    (placeOrder dbC2 77 5 itemsC2).db.order_items = [⟨1, 1, 2, 10⟩, ⟨1, 2, 1, 5⟩] ∧
    (placeOrder dbC2 77 5 itemsC2).db.cart.filter (fun r => r.user_id == 5) = [] := by
  obtain ⟨h1, h2, h3, _, h5⟩ :=
    C2_placeOrder_checkout dbC2 77 5 itemsC2 (by decide) (by decide)
  refine ⟨h1, ?_, ?_, h5⟩
  · rw [h2]; rfl
  · rw [h3]; rfl

/-! ### C3 -/

/-- Database of the C3 counterexample: the catalog holds only product 1. -/
def dbC3 : DB := ⟨[⟨1, "widget", 10, "w"⟩], [⟨1, 1, 2⟩], [], [], 1⟩

/-- C3 counterexample: `placeSingleOrder` for product 42, absent from the
catalog, answers 500 — the thrown `Product not found` is re-raised to the
generic catch — not the 404 the claim states. -/
theorem C3_counterexample :
    (placeSingleOrder dbC3 9 1 42 1).status ≠ 404 ∧
    (placeSingleOrder dbC3 9 1 42 1).status = 500 :=
  ⟨by decide, by decide⟩

/-- C3 amended: `placeSingleOrder` with a productId absent from the catalog
is rejected with a 500 response and creates no order row: the transaction is
fully rolled back and the database, hence the orders and order_items tables,
is unchanged. -/
theorem C3_singleOrder_missing_product_rolls_back (db : DB) (now u pid : Nat) (q : Int)
    (hu : u ≠ 0) (hpid : pid ≠ 0) (hq : q ≠ 0)
    (hmissing : ∀ pr ∈ db.products, (pr.id == pid) = false) :
    (placeSingleOrder db now u pid q).status = 500 ∧
    (placeSingleOrder db now u pid q).db = db := by
  have hcond : (u == 0 || pid == 0 || q == 0) = false := by simp [hu, hpid, hq]
  have hfind : db.products.find? (fun p => p.id == pid) = none := by
    rw [List.find?_eq_none]
    intro p hp
    simp [hmissing p hp]
  refine ⟨?_, ?_⟩ <;> simp [placeSingleOrder, hcond, hfind]

theorem C3_singleOrder_missing_product_witness :
    (placeSingleOrder dbC3 9 1 42 1).status = 500 ∧
    (placeSingleOrder dbC3 9 1 42 1).db = dbC3 :=
  C3_singleOrder_missing_product_rolls_back dbC3 9 1 42 1
    (by decide) (by decide) (by decide) (by decide)

/-! ### C4 -/

/-- Database of the C4 failing input: the catalog holds only product 1. -/
def dbC4 : DB := ⟨[⟨1, "widget", 10, "w"⟩], [], [], [], 1⟩

/-- C4 fails on the dispatched handler: the first-registered `POST
/api/cart` handler (the one Express serves) accepts the non-positive
quantity -5 with a 200 and writes the cart row, and writes a row for
product 999 which is absent from the catalog (it has no 404 path at all);
the unreachable second registration implements exactly the claimed
rejections, before any write. -/
theorem C4_dispatched_handler_skips_validation :
    (cartAddFirst dbC4 1 1 (-5)).status = 200 ∧
    (cartAddFirst dbC4 1 1 (-5)).db.cart = [⟨1, 1, -5⟩] ∧
    (cartAddFirst dbC4 1 999 (-5)).db.cart = [⟨1, 999, -5⟩] ∧
    (cartAddSecond dbC4 1 1 (-5)).status = 400 ∧
    (cartAddSecond dbC4 1 1 (-5)).db = dbC4 ∧
    (cartAddSecond dbC4 1 999 3).status = 404 ∧
    (cartAddSecond dbC4 1 999 3).db = dbC4 :=
  ⟨by decide, by decide, by decide, by decide, by decide, by decide, by decide⟩

/-! ### C5 -/

/-- Database of the C5 counterexample: product 2 exists, the cart is
empty. -/
def dbC5 : DB := ⟨[⟨2, "gadget", 5, "g"⟩], [], [], [], 1⟩

/-- C5 counterexample: `POST /api/cart/update` with positive quantity 3 for
a (user, product) pair having no cart row answers 200, not a not-found
condition, and creates the row. -/
theorem C5_counterexample :
    (cartUpdatePost dbC5 1 2 3).status ≠ 404 ∧
    (cartUpdatePost dbC5 1 2 3).db.cart = [⟨1, 2, 3⟩] :=
  ⟨by decide, by decide⟩

/-- C5 amended: the no-implicit-creation contract holds for `PUT
/api/cart/update-quantity`: with a positive quantity and no (user, product)
cart row it answers 404 and leaves the database unchanged; `POST
/api/cart/update` instead upserts, creating the row. -/
theorem C5_put_no_implicit_creation (db : DB) (u p : Nat) (q : Int)
    (hu : u ≠ 0) (hp : p ≠ 0) (hq : 1 ≤ q)
    (hnone : ∀ r ∈ db.cart, rowMatches u p r = false) :
    (cartUpdateQuantityPut db u p q).status = 404 ∧
    (cartUpdateQuantityPut db u p q).db = db := by
  have hcond : (u == 0 || p == 0) = false := by simp [hu, hp]
  have hlt : ¬ q < 1 := not_lt.mpr hq
  have haff : (db.cart.filter fun r => rowMatches u p r && !(r.quantity == q)) = [] := by
    rw [List.filter_eq_nil_iff]
    intro r hr
    simp [hnone r hr]
  have hmap : (db.cart.map (fun r =>
      if rowMatches u p r then { r with quantity := q } else r)) = db.cart := by
    rw [List.map_congr_left (g := id), List.map_id]
    intro r hr
    simp [hnone r hr]
  refine ⟨?_, ?_⟩ <;> simp [cartUpdateQuantityPut, hcond, hlt, haff, hmap]

theorem C5_put_no_implicit_creation_witness :
    (cartUpdateQuantityPut dbC5 1 2 3).status = 404 ∧
    (cartUpdateQuantityPut dbC5 1 2 3).db = dbC5 :=
  C5_put_no_implicit_creation dbC5 1 2 3 (by decide) (by decide) (by decide) (by decide)

/-! ### C6 -/

/-- Three concurrent requests to the dispatched cart-add handler, each
adding quantity 1 for user 1 and product 1, over an initially empty cart. -/
def raceInit : RaceState := ⟨[], [mkAddCall 1 1 1, mkAddCall 1 1 1, mkAddCall 1 1 1]⟩

/-- C6 fails: the dispatched cart-add handler is an unlocked read-then-write.
Of three addOrMerge(1,1,1) calls, letting the first complete alone and then
interleaving the SELECTs of the other two before their UPDATEs leaves the
stored quantity at 2 — an increment is lost — while the fully serialized
schedule of the same three calls leaves 3. -/
theorem C6_concurrent_addOrMerge_loses_update :
    (runSchedule raceInit [0, 0, 1, 2, 1, 2]).cart = [⟨1, 1, 2⟩] ∧
    (runSchedule raceInit [0, 0, 1, 1, 2, 2]).cart = [⟨1, 1, 3⟩] ∧
    ([⟨1, 1, 2⟩] : List CartRow) ≠ [⟨1, 1, 3⟩] :=
  ⟨by decide, by decide, by decide⟩

/-! ### C7 -/

/-- C7: two sequential addOrMerge calls through the dispatched cart-add
handler, for a (user, product) pair with no pre-existing cart row, both
answer 200 and leave exactly one cart row for the pair, holding quantity
q1 + q2. -/
theorem C7_addOrMerge_additive (db : DB) (u p : Nat) (q1 q2 : Int)
    (hu : u ≠ 0) (hp : p ≠ 0) (hq1 : q1 ≠ 0) (hq2 : q2 ≠ 0)
    (hnone : ∀ r ∈ db.cart, rowMatches u p r = false) :
    (cartAddFirst db u p q1).status = 200 ∧
    (cartAddFirst (cartAddFirst db u p q1).db u p q2).status = 200 ∧
    (cartAddFirst (cartAddFirst db u p q1).db u p q2).db.cart.filter (rowMatches u p)
      = [⟨u, p, q1 + q2⟩] := by
  have hc1 : (u == 0 || p == 0 || q1 == 0) = false := by simp [hu, hp, hq1]
  have hc2 : (u == 0 || p == 0 || q2 == 0) = false := by simp [hu, hp, hq2]
  have hfind : db.cart.find? (rowMatches u p) = none := by
    rw [List.find?_eq_none]
    intro r hr
    simp [hnone r hr]
  have hself : rowMatches u p ⟨u, p, q1⟩ = true := by simp [rowMatches]
  have e1 : cartAddFirst db u p q1
      = ⟨200, some ⟨u, p, q1⟩, { db with cart := db.cart ++ [(⟨u, p, q1⟩ : CartRow)] }⟩ := by
    simp [cartAddFirst, hc1, hfind]
  have e2c : (cartAddFirst { db with cart := db.cart ++ [(⟨u, p, q1⟩ : CartRow)] } u p q2).db.cart
      = (db.cart ++ [(⟨u, p, q1⟩ : CartRow)]).map (fun r =>
          if rowMatches u p r then { r with quantity := q1 + q2 } else r) := by
    simp [cartAddFirst, hc2, hfind, hself]
  have e2s : (cartAddFirst { db with cart := db.cart ++ [(⟨u, p, q1⟩ : CartRow)] } u p q2).status
      = 200 := by
    simp [cartAddFirst, hc2, hfind, hself]
  have hmapcart : (db.cart ++ [(⟨u, p, q1⟩ : CartRow)]).map (fun r =>
      if rowMatches u p r then { r with quantity := q1 + q2 } else r)
      = db.cart ++ [(⟨u, p, q1 + q2⟩ : CartRow)] := by
    rw [List.map_append]
    congr 1
    · rw [List.map_congr_left (g := id), List.map_id]
      intro r hr
      simp [hnone r hr]
    · simp [hself]
  have hfilter : (db.cart ++ [(⟨u, p, q1 + q2⟩ : CartRow)]).filter (rowMatches u p)
      = [⟨u, p, q1 + q2⟩] := by
    rw [List.filter_append]
    have h1 : db.cart.filter (rowMatches u p) = [] := by
      rw [List.filter_eq_nil_iff]
      intro r hr
      simp [hnone r hr]
    have h2 : rowMatches u p ⟨u, p, q1 + q2⟩ = true := by simp [rowMatches]
    rw [h1]
    simp [h2]
  refine ⟨?_, ?_, ?_⟩
  · simp [e1]
  · simp only [e1]
    exact e2s
  · simp only [e1]
    rw [e2c, hmapcart]
    exact hfilter

/-- Database for the C7 witness: product 3 exists, the cart is empty. -/
def dbC7 : DB := ⟨[⟨3, "cable", 7, "c"⟩], [], [], [], 1⟩

theorem C7_addOrMerge_additive_witness :
    (cartAddFirst dbC7 1 3 2).status = 200 ∧
    (cartAddFirst (cartAddFirst dbC7 1 3 2).db 1 3 5).status = 200 ∧
    (cartAddFirst (cartAddFirst dbC7 1 3 2).db 1 3 5).db.cart.filter (rowMatches 1 3)
      = [⟨1, 3, 7⟩] := by
  have h := C7_addOrMerge_additive dbC7 1 3 2 5
    (by decide) (by decide) (by decide) (by decide) (by decide)
  exact ⟨h.1, h.2.1, h.2.2⟩

/-! ### C8 -/

/-- Membership inversion for the cart listing: every item of the
`GET /api/cart/:userId` response comes from a cart row of that user with the
same product id. -/
theorem getCart_mem (db : DB) (u : Nat) (hu : (u == 0) = false) (it : CartView)
    (hit : it ∈ (getCart db u).cartItems) :
    ∃ r ∈ db.cart, (r.user_id == u) = true ∧ it.product_id = r.product_id := by
  simp only [getCart, hu, Bool.false_eq_true, if_false] at hit
  rw [apply_ite GetCartRes.cartItems] at hit
  split at hit
  · simp at hit
  · simp only [List.mem_filterMap, List.mem_filter] at hit
    obtain ⟨r, ⟨hr1, hr2⟩, hr3⟩ := hit
    obtain ⟨q, _, hq2⟩ := Option.map_eq_some'.mp hr3
    exact ⟨r, hr1, hr2, by rw [← hq2]⟩

/-- C8: setting quantity 0 through `POST /api/cart/update` leaves exactly
the database state `DELETE /api/cart/remove` leaves; afterward no cart row
for the (user, product) pair exists, and the cart listing of the user
contains no item for that product. -/
theorem C8_setQuantityZero_equiv_remove (db : DB) (u p : Nat)
    (hu : u ≠ 0) (hp : p ≠ 0) :
    (cartUpdatePost db u p 0).db = (cartRemove db u p).db ∧
    (cartUpdatePost db u p 0).db.cart.filter (rowMatches u p) = [] ∧
    ∀ it ∈ (getCart (cartUpdatePost db u p 0).db u).cartItems, it.product_id ≠ p := by
  have hcond : (u == 0 || p == 0) = false := by simp [hu, hp]
  have e1 : (cartUpdatePost db u p 0).db
      = { db with cart := db.cart.filter (fun r => !rowMatches u p r) } := by
    simp [cartUpdatePost, hcond]
  have e2 : (cartRemove db u p).db
      = { db with cart := db.cart.filter (fun r => !rowMatches u p r) } := by
    simp only [cartRemove, hcond, Bool.false_eq_true, if_false]
    split <;> rfl
  refine ⟨by rw [e1, e2], by rw [e1]; exact filter_not_self _, ?_⟩
  intro it hit
  rw [e1] at hit
  have hu' : (u == 0) = false := by simp [hu]
  obtain ⟨r, hr1, hr2, hr3⟩ := getCart_mem _ u hu' it hit
  simp only [List.mem_filter] at hr1
  have hneg : (r.product_id == p) = false := by
    have h := hr1.2
    rw [Bool.not_eq_eq_eq_not, Bool.not_true, rowMatches, hr2, Bool.true_and] at h
    exact h
  intro hcontra
  rw [← hr3, hcontra] at hneg
  simp at hneg

/-- Database for the C8 witness: user 1 has products 2 and 3 in the cart. -/
def dbC8 : DB := ⟨[⟨2, "gadget", 5, "g"⟩, ⟨3, "cable", 7, "c"⟩],
  [⟨1, 2, 4⟩, ⟨1, 3, 1⟩], [], [], 1⟩

theorem C8_setQuantityZero_equiv_remove_witness :
    (cartUpdatePost dbC8 1 2 0).db = (cartRemove dbC8 1 2).db ∧
    (cartUpdatePost dbC8 1 2 0).db.cart.filter (rowMatches 1 2) = [] ∧
    ∀ it ∈ (getCart (cartUpdatePost dbC8 1 2 0).db 1).cartItems, it.product_id ≠ 2 :=
  C8_setQuantityZero_equiv_remove dbC8 1 2 (by decide) (by decide)

/-! ### C9 -/

/-- C9: ownership and id-form handling of the dispatched
`GET /api/orders/:orderId` handler.  Soundness: a 200 answer always carries
the processed payload of an order of the requesting user, never another
user's data.  Not-found: when no order of the requesting user renders to the
stripped id parameter — in particular when the order exists but belongs to a
different user, or does not exist — the answer is 404 with no data.  Form
acceptance: any well-formed parameter whose stripped form renders an order
owned by the requesting user — both the raw decimal id and its
`ORD-`-prefixed display form do — is answered 200. -/
theorem C9_getOrder_ownership :
    (∀ (db : DB) (u : Nat) (s : String),
      (getOrderFirst db u s).status = 200 →
      ∃ o ∈ db.orders, o.user_id = u ∧
        (getOrderFirst db u s).order = some (processOrder db o)) ∧
    (∀ (db : DB) (u : Nat) (s : String), u ≠ 0 → s ≠ emptyStr →
      (∀ o ∈ db.orders, o.user_id = u → toString o.id ≠ stripOrd s) →
      (getOrderFirst db u s).status = 404 ∧ (getOrderFirst db u s).order = none) ∧
    (∀ (db : DB) (u : Nat) (s : String) (o : OrderRow), u ≠ 0 → s ≠ emptyStr →
      o ∈ db.orders → o.user_id = u → stripOrd s = toString o.id →
      (getOrderFirst db u s).status = 200) := by
  refine ⟨?_, ?_, ?_⟩
  · intro db u s h200
    by_cases hval : (u == 0 || s == emptyStr) = true
    · simp [getOrderFirst, hval] at h200
    · rw [Bool.not_eq_true] at hval
      rcases hfind : db.orders.find?
          (fun o => sqlIdEq (stripOrd s) o.id && o.user_id == u) with _ | o
      · simp [getOrderFirst, hval, hfind] at h200
      · have hmem := List.mem_of_find?_eq_some hfind
        have hpred := List.find?_some hfind
        rw [Bool.and_eq_true] at hpred
        have hid : stripOrd s = toString o.id := by
          have := hpred.1
          rwa [sqlIdEq, beq_iff_eq] at this
        have huser : o.user_id = u := by
          have := hpred.2
          rwa [beq_iff_eq] at this
        refine ⟨o, hmem, huser, ?_⟩
        simp only [getOrderFirst, hval, Bool.false_eq_true, if_false, hfind]
        simp [processOrder, hid]
  · intro db u s hu hs h
    have hval : (u == 0 || s == emptyStr) = false := by simp [hu, hs]
    have hfind : db.orders.find?
        (fun o => sqlIdEq (stripOrd s) o.id && o.user_id == u) = none := by
      rw [List.find?_eq_none]
      intro o ho
      rw [Bool.not_eq_true, Bool.and_eq_false_iff]
      by_cases huo : o.user_id = u
      · exact Or.inl (by rw [sqlIdEq, beq_eq_false_iff_ne]; exact (h o ho huo).symm)
      · exact Or.inr (by rwa [beq_eq_false_iff_ne])
    constructor <;> simp [getOrderFirst, hval, hfind]
  · intro db u s o hu hs hmem huser hid
    have hval : (u == 0 || s == emptyStr) = false := by simp [hu, hs]
    have hsome : (db.orders.find?
        (fun o => sqlIdEq (stripOrd s) o.id && o.user_id == u)).isSome := by
      rw [List.find?_isSome]
      exact ⟨o, hmem, by simp [sqlIdEq, hid, huser]⟩
    rcases hfind : db.orders.find?
        (fun o => sqlIdEq (stripOrd s) o.id && o.user_id == u) with _ | o'
    · rw [hfind] at hsome
      simp at hsome
    · simp [getOrderFirst, hval, hfind]

/-- Database for the C9 witness: order 7 belongs to user 1. -/
def dbC9 : DB := ⟨[⟨1, "widget", 99, "w"⟩], [], [⟨7, 1, 86400000, 20⟩], [⟨7, 1, 2, 10⟩], 8⟩

/-- The display form of order 7. -/
def ordSeven : String := "ORD-7"

/-- The raw decimal form of order 7. -/
def rawSeven : String := "7"

theorem C9_getOrder_ownership_witness :
    (∃ o ∈ dbC9.orders, o.user_id = 1 ∧
      (getOrderFirst dbC9 1 ordSeven).order = some (processOrder dbC9 o)) ∧
    ((getOrderFirst dbC9 2 ordSeven).status = 404 ∧
      (getOrderFirst dbC9 2 ordSeven).order = none) ∧
    (getOrderFirst dbC9 1 rawSeven).status = 200 :=
  ⟨C9_getOrder_ownership.1 dbC9 1 ordSeven (by decide),
   C9_getOrder_ownership.2.1 dbC9 2 ordSeven (by decide) (by decide) (by decide),
   C9_getOrder_ownership.2.2 dbC9 1 rawSeven ⟨7, 1, 86400000, 20⟩
     (by decide) (by decide) (by decide) (by decide) (by decide)⟩

/-! ### C10 -/

theorem insertByDateDesc_perm (o : OrderRow) (l : List OrderRow) :
    (insertByDateDesc o l).Perm (o :: l) := by
  induction l with
  | nil => simp [insertByDateDesc]
  | cons x xs ih =>
    rw [insertByDateDesc]
    split
    · exact List.Perm.refl _
    · exact (ih.cons x).trans (List.Perm.swap o x xs)

theorem sortByDateDesc_perm (l : List OrderRow) : (sortByDateDesc l).Perm l := by
  induction l with
  | nil => simp [sortByDateDesc]
  | cons x xs ih =>
    rw [sortByDateDesc, List.foldr_cons]
    exact (insertByDateDesc_perm x _).trans (ih.cons x)

theorem insertByDateDesc_sorted (o : OrderRow) (l : List OrderRow)
    (h : l.Pairwise (fun a b => b.order_date ≤ a.order_date)) :
    (insertByDateDesc o l).Pairwise (fun a b => b.order_date ≤ a.order_date) := by
  induction l with
  | nil => simp [insertByDateDesc]
  | cons x xs ih =>
    rw [insertByDateDesc]
    rw [List.pairwise_cons] at h
    split
    · next hle =>
      rw [List.pairwise_cons]
      refine ⟨?_, List.pairwise_cons.mpr h⟩
      intro b hb
      rcases List.mem_cons.mp hb with hb | hb
      · rw [hb]; exact hle
      · exact le_trans (h.1 b hb) hle
    · next hgt =>
      rw [List.pairwise_cons]
      refine ⟨?_, ih h.2⟩
      intro b hb
      have hb' := (insertByDateDesc_perm o xs).mem_iff.mp hb
      rcases List.mem_cons.mp hb' with hb' | hb'
      · rw [hb']; omega
      · exact h.1 b hb'

theorem sortByDateDesc_sorted (l : List OrderRow) :
    (sortByDateDesc l).Pairwise (fun a b => b.order_date ≤ a.order_date) := by
  induction l with
  | nil => simp [sortByDateDesc]
  | cons x xs ih =>
    rw [sortByDateDesc, List.foldr_cons]
    exact insertByDateDesc_sorted x _ ih

theorem lookupGroup_insertGroup_self (acc : List (Nat × List OItemView)) (k : Nat)
    (v : OItemView) :
    (lookupGroup (insertGroup acc k v) k).getD []
      = (lookupGroup acc k).getD [] ++ [v] := by
  rw [insertGroup]
  split
  · next hany =>
    obtain ⟨e0, hfind⟩ : ∃ e0, acc.find? (fun e => e.1 == k) = some e0 := by
      have hsome : (acc.find? (fun e => e.1 == k)).isSome := by
        rw [List.find?_isSome]
        simpa [List.any_eq_true] using hany
      exact Option.isSome_iff_exists.mp hsome
    have hpred := List.find?_some hfind
    have hcomp : ((fun e : Nat × List OItemView => e.1 == k) ∘
        (fun e : Nat × List OItemView => if e.1 == k then (e.1, e.2 ++ [v]) else e))
        = fun e : Nat × List OItemView => e.1 == k := by
      funext e
      simp only [Function.comp]
      split <;> rfl
    rw [beq_iff_eq] at hpred
    rw [lookupGroup, lookupGroup, List.find?_map, hcomp, hfind]
    simp [hpred]
  · next hany =>
    have hnone : acc.find? (fun e => e.1 == k) = none := by
      rw [List.find?_eq_none]
      intro e he hpe
      exact hany (List.any_eq_true.mpr ⟨e, he, hpe⟩)
    rw [lookupGroup, lookupGroup, List.find?_append, hnone]
    simp

theorem lookupGroup_insertGroup_ne (acc : List (Nat × List OItemView)) (k k2 : Nat)
    (v : OItemView) (hne : k2 ≠ k) :
    lookupGroup (insertGroup acc k v) k2 = lookupGroup acc k2 := by
  rw [insertGroup]
  split
  · have hcomp : ((fun e : Nat × List OItemView => e.1 == k2) ∘
        (fun e : Nat × List OItemView => if e.1 == k then (e.1, e.2 ++ [v]) else e))
        = fun e : Nat × List OItemView => e.1 == k2 := by
      funext e
      simp only [Function.comp]
      split <;> rfl
    rw [lookupGroup, lookupGroup, List.find?_map, hcomp]
    cases hf : acc.find? (fun e => e.1 == k2) with
    | none => simp
    | some e0 =>
      have hpred := List.find?_some hf
      rw [beq_iff_eq] at hpred
      have he0 : e0.1 ≠ k := by
        rw [hpred]
        exact hne
      simp [he0]
  · rw [lookupGroup, lookupGroup, List.find?_append]
    have hsingle : List.find? (fun e : Nat × List OItemView => e.1 == k2) [(k, [v])]
        = none := by
      simp [Ne.symm hne]
    rw [hsingle]
    simp

theorem lookupGroup_foldl (l : List (Nat × OItemView)) (acc : List (Nat × List OItemView))
    (k : Nat) :
    (lookupGroup (l.foldl (fun a x => insertGroup a x.1 x.2) acc) k).getD []
      = (lookupGroup acc k).getD [] ++ (l.filter (fun x => x.1 == k)).map (fun x => x.2) := by
  induction l generalizing acc with
  | nil => simp
  | cons x xs ih =>
    rw [List.foldl_cons, ih, List.filter_cons]
    by_cases hk : x.1 = k
    · rw [hk]
      have hself : (lookupGroup (insertGroup acc k x.2) k).getD []
          = (lookupGroup acc k).getD [] ++ [x.2] := lookupGroup_insertGroup_self acc k x.2
      simp [hself, hk]
    · rw [lookupGroup_insertGroup_ne acc x.1 k x.2 (Ne.symm hk)]
      have : (x.1 == k) = false := by simp [hk]
      simp [this]

theorem join_filter_of_contains (prods : List Product) (ids : List Nat) (oid : Nat)
    (hmem : ids.contains oid = true) (items : List OrderItemRow) :
    (((items.filter (fun oi => ids.contains oi.order_id)).filterMap
        (fun oi => (prods.find? (fun p => p.id == oi.product_id)).map (fun p =>
          (oi.order_id,
            (⟨oi.product_id, p.name, oi.price, oi.quantity, p.image⟩ : OItemView))))).filter
        (fun x => x.1 == oid)).map (fun x => x.2)
      = (items.filter (fun oi => oi.order_id == oid)).filterMap
          (fun oi => (prods.find? (fun p => p.id == oi.product_id)).map (fun p =>
            ⟨oi.product_id, p.name, oi.price, oi.quantity, p.image⟩)) := by
  induction items with
  | nil => rfl
  | cons oi rest ih =>
    rw [List.filter_cons, List.filter_cons]
    by_cases h1 : oi.order_id = oid
    · have hc : ids.contains oi.order_id = true := by rw [h1]; exact hmem
      have h1b : (oi.order_id == oid) = true := by simp [h1]
      simp only [hc, h1b, if_true, List.filterMap_cons]
      cases hg : prods.find? (fun p => p.id == oi.product_id) with
      | none =>
        simp only [Option.map_none']
        exact ih
      | some p =>
        simp only [Option.map_some', List.filter_cons, h1b, if_true, List.map_cons]
        rw [ih]
    · have h1b : (oi.order_id == oid) = false := by simp [h1]
      rw [h1b]
      simp only [Bool.false_eq_true, if_false]
      by_cases h2 : ids.contains oi.order_id = true
      · simp only [h2, if_true, List.filterMap_cons]
        cases hg : prods.find? (fun p => p.id == oi.product_id) with
        | none =>
          simp only [Option.map_none']
          exact ih
        | some p =>
          simp only [Option.map_some', List.filter_cons, h1b, Bool.false_eq_true, if_false]
          exact ih
      · have h2b : ids.contains oi.order_id = false := by
          rwa [Bool.not_eq_true] at h2
        simp only [h2b, Bool.false_eq_true, if_false]
        exact ih

/-- C10: the dispatched `GET /api/orders` handler answers 200 with exactly
the user's orders, arranged descending in `order_date` (a permutation of the
user's order rows, pairwise newest-first), each formatted by
`specOrderView`: display id `ORD-` followed by the numeric id, the calendar
day of the order date with the time component discarded, and the line items
reconstructed from the `order_items` rows of that order; every returned item
carries the frozen price and quantity written at checkout; a user with no
orders gets an empty list, not an error. -/
theorem C10_listOrders (db : DB) (u : Nat) (hu : u ≠ 0) :
    (listOrdersFirst db u).status = 200 ∧
    (listOrdersFirst db u).orders
      = (sortByDateDesc (db.orders.filter (fun o => o.user_id == u))).map (specOrderView db) ∧
    (sortByDateDesc (db.orders.filter (fun o => o.user_id == u))).Perm
      (db.orders.filter (fun o => o.user_id == u)) ∧
    (sortByDateDesc (db.orders.filter (fun o => o.user_id == u))).Pairwise
      (fun a b => b.order_date ≤ a.order_date) ∧
    (db.orders.filter (fun o => o.user_id == u) = [] → (listOrdersFirst db u).orders = []) ∧
    (∀ po ∈ (listOrdersFirst db u).orders, ∀ it ∈ po.items,
      ∃ oi ∈ db.order_items, it.product_id = oi.product_id ∧ it.price = oi.price ∧
        it.quantity = oi.quantity) := by
  have hu' : (u == 0) = false := by simp [hu]
  have hstatus : (listOrdersFirst db u).status = 200 := by
    simp only [listOrdersFirst, hu', Bool.false_eq_true, if_false]
    split <;> rfl
  have horders : (listOrdersFirst db u).orders
      = (sortByDateDesc (db.orders.filter (fun o => o.user_id == u))).map (specOrderView db) := by
    simp only [listOrdersFirst, hu', Bool.false_eq_true, if_false]
    by_cases hemp : (sortByDateDesc (db.orders.filter (fun o => o.user_id == u))).isEmpty = true
    · rw [List.isEmpty_iff] at hemp
      simp [hemp]
    · have hemp' : (sortByDateDesc (db.orders.filter (fun o => o.user_id == u))).isEmpty
          = false := by rwa [Bool.not_eq_true] at hemp
      simp only [hemp', Bool.false_eq_true, if_false]
      apply List.map_congr_left
      intro o ho
      have hids : ((sortByDateDesc (db.orders.filter (fun o => o.user_id == u))).map
          (fun o => o.id)).contains o.id = true := by
        have hmm := List.mem_map_of_mem (fun o : OrderRow => o.id) ho
        exact List.elem_eq_true_of_mem hmm
      simp only [specOrderView, ProcessedOrder.mk.injEq, true_and]
      rw [lookupGroup_foldl]
      rw [join_filter_of_contains db.products _ o.id hids db.order_items]
      simp [lookupGroup]
  refine ⟨hstatus, horders, sortByDateDesc_perm _, sortByDateDesc_sorted _, ?_, ?_⟩
  · intro h
    rw [horders, h]
    rfl
  · intro po hpo it hit
    rw [horders] at hpo
    obtain ⟨o, ho, rfl⟩ := List.mem_map.mp hpo
    simp only [specOrderView, List.mem_filterMap, List.mem_filter] at hit
    obtain ⟨oi, ⟨hoi1, _⟩, hoi3⟩ := hit
    obtain ⟨p, _, hp2⟩ := Option.map_eq_some'.mp hoi3
    exact ⟨oi, hoi1, by rw [← hp2], by rw [← hp2], by rw [← hp2]⟩

/-- Database for the C10 witness: user 1 owns orders 7 and 8 (order 8 is
newer), user 2 owns order 9; the catalog price (99) differs from the frozen
item prices (10). -/
def dbC10 : DB := ⟨[⟨1, "widget", 99, "w"⟩], [],
  [⟨7, 1, 86400000, 20⟩, ⟨8, 1, 2 * 86400000 + 5, 30⟩, ⟨9, 2, 3, 40⟩],
  [⟨7, 1, 2, 10⟩, ⟨8, 1, 3, 10⟩, ⟨9, 1, 4, 10⟩], 10⟩

theorem C10_listOrders_witness :
    (listOrdersFirst dbC10 1).status = 200 ∧
    (listOrdersFirst dbC10 1).orders
      = (sortByDateDesc (dbC10.orders.filter (fun o => o.user_id == 1))).map
          (specOrderView dbC10) :=
  ⟨(C10_listOrders dbC10 1 (by decide)).1, (C10_listOrders dbC10 1 (by decide)).2.1⟩
